import Mathlib

/-!
# Verification of the Composite_Microservices orchestration layer

Shallow embedding of the composite microservice code
(`composite-service/` and `pawpal-composite-service/`) and proofs of the
specification's claims about it.

The remote atomic services are modelled as response environments: a record
of pure functions giving, for each client method, the response the remote
service would return for a given argument.  Every composite operation is
embedded as a pure function from such an environment and its request
arguments to a pair of (outcome, trace), where the trace is the ordered
list of remote client calls the operation issued.  Within a thread-pool
fan-out wave the real completion order is schedule dependent; the trace
lists the calls of a wave in submission order, which is sound for every
property proved here (presence of calls, absence of calls, and the position
of calls issued strictly after a wave's join).
-/

namespace CompositeMicroservices

/-- Entity ids (`uuid.UUID` values) are modelled as naturals. -/
abbrev Uuid := Nat

/-- ISO-8601 timestamps are carried opaquely as strings. -/
abbrev Timestamp := String

/-- An `HTTPException(status_code=..., detail=...)` raised to the caller. -/
structure HttpError where
  status : Nat
  detail : String
  deriving Repr, DecidableEq

deriving instance DecidableEq for Except

/-- `models/walk.py` `WalkRead`: the server representation of a walk. -/
structure WalkRead where
  id : Uuid
  owner_id : Uuid
  pet_id : Uuid
  location : String
  city : String
  scheduled_time : Timestamp
  duration_minutes : Int
  status : String
  deriving Repr, DecidableEq

/-- `models/assignment.py` `AssignmentRead`. -/
structure AssignmentRead where
  id : Uuid
  walk_id : Uuid
  walker_id : Uuid
  start_time : Option Timestamp
  end_time : Option Timestamp
  status : String
  notes : Option String
  deriving Repr, DecidableEq

/-- `models/assignment.py` `AssignmentCreate` (id is supplied by default factory). -/
structure AssignmentCreate where
  id : Uuid
  walk_id : Uuid
  walker_id : Uuid
  start_time : Option Timestamp
  end_time : Option Timestamp
  status : String
  notes : Option String
  deriving Repr, DecidableEq

/-- `models/event.py` `EventRead`. -/
structure EventRead where
  id : Uuid
  walk_id : Uuid
  timestamp : Timestamp
  event_type : String
  message : Option String
  deriving Repr, DecidableEq

/-- `models/event.py` `EventCreate`. -/
structure EventCreate where
  id : Uuid
  walk_id : Uuid
  timestamp : Timestamp
  event_type : String
  message : Option String
  deriving Repr, DecidableEq

/-- One remote call issued through the `AtomicServiceClient`
(`composite-service/client.py`), as recorded in an operation's trace. -/
inductive Call where
  | getWalk (walkId : Uuid)
  | listAssignments (walkId : Option Uuid)
  | listEvents (walkId : Option Uuid)
  | createAssignment (payload : AssignmentCreate)
  | createEvent (payload : EventCreate)
  | deleteAssignment (assignmentId : Uuid)
  | deleteEvent (eventId : Uuid)
  | deleteWalk (walkId : Uuid)
  deriving Repr, DecidableEq

/-- Whether a client call writes to the atomic service (create or delete);
reads (`get`, `list`) have no remote side effect. -/
def Call.isMutating : Call → Bool
  | .createAssignment _ => true
  | .createEvent _ => true
  | .deleteAssignment _ => true
  | .deleteEvent _ => true
  | .deleteWalk _ => true
  | _ => false

/-- Response environment for the atomic Walk Service: for each
`AtomicServiceClient` method the claims exercise, the response the remote
service returns for a given argument.  `get` responses are `Option`
(`None` models the 404 branch of `client.get_walk`); `delete` responses are
`Except HttpError Bool` (`ok true` = 204, `ok false` = 404, `error` = the
`HTTPException` the client raises on any other status).  `list` and
`create` responses are modelled on their success path, which is the only
path the claims about the orchestration endpoints quantify over. -/
structure Env where
  getWalk : Uuid → Option WalkRead
  listAssignmentsByWalk : Uuid → List AssignmentRead
  listEventsByWalk : Uuid → List EventRead
  createAssignment : AssignmentCreate → AssignmentRead
  createEvent : EventCreate → EventRead
  deleteAssignment : Uuid → Except HttpError Bool
  deleteEvent : Uuid → Except HttpError Bool
  deleteWalk : Uuid → Except HttpError Bool

/-- Detail message of `constraints.validate_assignment_walk_id`. -/
def assignmentFkDetail (walkId : Uuid) : String :=
  "Walk " ++ toString walkId ++
    " does not exist. Cannot create assignment - foreign key constraint violation."

/-- Detail message of `constraints.validate_event_walk_id`. -/
def eventFkDetail (walkId : Uuid) : String :=
  "Walk " ++ toString walkId ++
    " does not exist. Cannot create event - foreign key constraint violation."

/-- `POST /assignments` (`main.create_assignment`): validate the walk
foreign key via `validate_assignment_walk_id` (a `client.get_walk`), and
only then issue `client.create_assignment`.  A missing walk raises
`ForeignKeyConstraintError` (status 400). -/
def create_assignment (env : Env) (assignment : AssignmentCreate) :
    Except HttpError AssignmentRead × List Call :=
  match env.getWalk assignment.walk_id with
  | none =>
    (.error ⟨400, assignmentFkDetail assignment.walk_id⟩, [.getWalk assignment.walk_id])
  | some _ =>
    (.ok (env.createAssignment assignment),
     [.getWalk assignment.walk_id, .createAssignment assignment])

/-- `POST /events` (`main.create_event`): validate the walk foreign key via
`validate_event_walk_id`, and only then issue `client.create_event`. -/
def create_event (env : Env) (event : EventCreate) :
    Except HttpError EventRead × List Call :=
  match env.getWalk event.walk_id with
  | none =>
    (.error ⟨400, eventFkDetail event.walk_id⟩, [.getWalk event.walk_id])
  | some _ =>
    (.ok (env.createEvent event), [.getWalk event.walk_id, .createEvent event])

/-- Summary block of the `GET /walks/{id}/complete` response. -/
structure WalkSummary where
  assignment_count : Nat
  event_count : Nat
  deriving Repr, DecidableEq

/-- Body of the `GET /walks/{id}/complete` response. -/
structure WalkComplete where
  walk : WalkRead
  assignments : List AssignmentRead
  events : List EventRead
  summary : WalkSummary
  deriving Repr, DecidableEq

/-- `GET /walks/{id}/complete` (`main.get_walk_complete`): validate the walk
exists (404 otherwise), then fan out `list_assignments(walk_id=...)` and
`list_events(walk_id=...)` on a two-worker pool and join on both. -/
def get_walk_complete (env : Env) (walkId : Uuid) :
    Except HttpError WalkComplete × List Call :=
  match env.getWalk walkId with
  | none => (.error ⟨404, "Walk not found"⟩, [.getWalk walkId])
  | some walk =>
    let assignments := env.listAssignmentsByWalk walkId
    let events := env.listEventsByWalk walkId
    (.ok ⟨walk, assignments, events, ⟨assignments.length, events.length⟩⟩,
     [.getWalk walkId, .listAssignments (some walkId), .listEvents (some walkId)])

/-- The `dependencies` list built by
`constraints.validate_walk_has_no_dependencies`: `"assignments"` when the
assignment list filtered by the walk id is non-empty, then `"events"` when
the event list is. -/
def dependentKinds (env : Env) (walkId : Uuid) : List String :=
  (if (env.listAssignmentsByWalk walkId).isEmpty then [] else ["assignments"]) ++
    (if (env.listEventsByWalk walkId).isEmpty then [] else ["events"])

/-- `constraints.validate_walk_has_no_dependencies`: list assignments and
events filtered by the walk id and report which dependent kinds exist. -/
def validate_walk_has_no_dependencies (env : Env) (walkId : Uuid) :
    (Bool × List String) × List Call :=
  let dependencies := dependentKinds env walkId
  ((decide (0 < dependencies.length), dependencies),
   [.listAssignments (some walkId), .listEvents (some walkId)])

/-- Detail message of the 400 dependency-conflict branch of
`main.delete_walk_cascade`. -/
def cascadeConflictDetail (walkId : Uuid) (depTypes : List String) : String :=
  "Cannot delete walk " ++ toString walkId ++ ": has dependencies (" ++
    String.intercalate ", " depTypes ++ "). Use force=true to delete anyway."

/-- The results of the best-effort dependent-delete wave of
`delete_walk_cascade`: one `client.delete_assignment` response per fetched
assignment followed by one `client.delete_event` response per fetched
event. -/
def dependentDeleteResults (env : Env) (walkId : Uuid) :
    List (Except HttpError Bool) :=
  (env.listAssignmentsByWalk walkId).map (fun a => env.deleteAssignment a.id) ++
    (env.listEventsByWalk walkId).map (fun e => env.deleteEvent e.id)

/-- The delete calls submitted in that wave, in submission order. -/
def dependentDeleteCalls (env : Env) (walkId : Uuid) : List Call :=
  (env.listAssignmentsByWalk walkId).map (fun a => .deleteAssignment a.id) ++
    (env.listEventsByWalk walkId).map (fun e => .deleteEvent e.id)

/-- `deleted_count` of `delete_walk_cascade`: `if future.result():
deleted_count += 1`, so only `True` results (204 deletions) are counted;
`False` results (404) are absorbed without incrementing. -/
def countDeleted (results : List (Except HttpError Bool)) : Nat :=
  results.countP (fun r => match r with | .ok true => true | _ => false)

/-- The first raised worker exception, if any: `future.result()` re-raises
a worker's `HTTPException`, aborting the loop before the parent delete. -/
def firstDeleteError (results : List (Except HttpError Bool)) :
    Option HttpError :=
  results.findSome? (fun r => match r with | .error e => some e | .ok _ => none)

/-- Body of the 200 response of `DELETE /walks/{id}/cascade`.  The code
returns `{"message": ..., "deleted": {"walk": ..., "assignments":
len(assignments), "events": len(events)}}`; `deleted_count` appears inside
the message string and is additionally exposed here as a field. -/
structure CascadeSummary where
  message : String
  deleted_walk : Uuid
  deleted_assignments : Nat
  deleted_events : Nat
  deletedCount : Nat
  deriving Repr, DecidableEq

/-- `DELETE /walks/{id}/cascade` (`main.delete_walk_cascade`):
1. `get_walk` — absent walk is a 404;
2. `validate_walk_has_no_dependencies` — dependents present without
   `force` is a 400 naming the dependent kinds, and nothing is deleted;
3. re-fetch the assignment and event lists, submit one delete per
   dependent to the worker pool (all submitted before any result is
   consumed), count `True` results; the first worker exception re-raised
   by `future.result()` propagates after the pool join, skipping the
   parent delete;
4. otherwise delete the walk last, discarding its boolean result, and
   return the 200 summary. -/
def delete_walk_cascade (env : Env) (walkId : Uuid) (force : Bool) :
    Except HttpError CascadeSummary × List Call :=
  match env.getWalk walkId with
  | none => (.error ⟨404, "Walk not found"⟩, [.getWalk walkId])
  | some _ =>
    let checked := validate_walk_has_no_dependencies env walkId
    let hasDeps := checked.1.1
    let depTypes := checked.1.2
    let preTrace := .getWalk walkId :: checked.2
    if hasDeps && !force then
      (.error ⟨400, cascadeConflictDetail walkId depTypes⟩, preTrace)
    else
      let assignments := env.listAssignmentsByWalk walkId
      let events := env.listEventsByWalk walkId
      let fetchTrace := preTrace ++
        [.listAssignments (some walkId), .listEvents (some walkId)]
      let waveTrace := fetchTrace ++ dependentDeleteCalls env walkId
      match firstDeleteError (dependentDeleteResults env walkId) with
      | some e => (.error e, waveTrace)
      | none =>
        let deletedCount := countDeleted (dependentDeleteResults env walkId)
        match env.deleteWalk walkId with
        | .error e => (.error e, waveTrace ++ [.deleteWalk walkId])
        | .ok _ =>
          (.ok ⟨"Walk " ++ toString walkId ++ " and " ++ toString deletedCount ++
                  " related records deleted successfully",
                walkId, assignments.length, events.length, deletedCount⟩,
           waveTrace ++ [.deleteWalk walkId])

/-- The calls `delete_walk_cascade` issues before the final parent delete
on its success path: the existence read, the two dependency-check lists,
the two re-fetch lists, and the dependent-delete wave. -/
def cascadePreParentTrace (env : Env) (walkId : Uuid) : List Call :=
  [.getWalk walkId, .listAssignments (some walkId), .listEvents (some walkId),
   .listAssignments (some walkId), .listEvents (some walkId)] ++
    dependentDeleteCalls env walkId

/-!
## HTTP-level model of the `AtomicServiceClient` methods the claims are
about: the delete status mapping and the partial-update body building.
-/

/-- A raw HTTP response from the atomic service (`response.status_code`,
`response.text`). -/
structure HttpResponse where
  status : Nat
  text : String
  deriving Repr, DecidableEq

/-- `client.delete_walk`: 204 → `True`, 404 → `False`, anything else
raises `HTTPException(status_code=response.status_code,
detail=response.text)`. -/
def delete_walk_client (response : HttpResponse) : Except HttpError Bool :=
  if response.status = 204 then .ok true
  else if response.status = 404 then .ok false
  else .error ⟨response.status, response.text⟩

/-- `client.delete_assignment`: same status mapping as `delete_walk`. -/
def delete_assignment_client (response : HttpResponse) : Except HttpError Bool :=
  if response.status = 204 then .ok true
  else if response.status = 404 then .ok false
  else .error ⟨response.status, response.text⟩

/-- `client.delete_event`: same status mapping as `delete_walk`. -/
def delete_event_client (response : HttpResponse) : Except HttpError Bool :=
  if response.status = 204 then .ok true
  else if response.status = 404 then .ok false
  else .error ⟨response.status, response.text⟩

/-- A JSON value as serialized into a request body. -/
inductive Json where
  | null
  | str (s : String)
  | num (n : Int)
  | boolean (b : Bool)
  deriving Repr, DecidableEq

/-- `models/walk.py` `WalkUpdate`: a partial update.  `none` models a field
the caller did not supply (pydantic "unset"); `some v` a supplied value. -/
structure WalkUpdate where
  scheduled_time : Option Timestamp
  duration_minutes : Option Int
  location : Option String
  city : Option String
  status : Option String
  deriving Repr, DecidableEq

/-- `models/assignment.py` `AssignmentUpdate`. -/
structure AssignmentUpdate where
  start_time : Option Timestamp
  end_time : Option Timestamp
  status : Option String
  notes : Option String
  deriving Repr, DecidableEq

/-- One field of a pydantic `model_dump(exclude_unset=True)`: an unset
field contributes nothing, a supplied field its key/value pair. -/
def optField {α : Type} (key : String) (enc : α → Json) : Option α → List (String × Json)
  | none => []
  | some v => [(key, enc v)]

/-- `update.model_dump(exclude_unset=True)` for `WalkUpdate`: the JSON
object sent as the PATCH body, holding exactly the supplied fields, in
model declaration order. -/
def walkUpdateBody (update : WalkUpdate) : List (String × Json) :=
  optField "scheduled_time" .str update.scheduled_time ++
    optField "duration_minutes" .num update.duration_minutes ++
    optField "location" .str update.location ++
    optField "city" .str update.city ++
    optField "status" .str update.status

/-- `update.model_dump(exclude_unset=True)` for `AssignmentUpdate`. -/
def assignmentUpdateBody (update : AssignmentUpdate) : List (String × Json) :=
  optField "start_time" .str update.start_time ++
    optField "end_time" .str update.end_time ++
    optField "status" .str update.status ++
    optField "notes" .str update.notes

/-- A PATCH request as built by the client: target path and JSON body. -/
structure PatchRequest where
  path : String
  body : List (String × Json)
  deriving Repr, DecidableEq

/-- `client.update_walk`: PATCH `{base_url}/walks/{walk_id}` with
`json=update.model_dump(exclude_unset=True)`. -/
def update_walk_request (walkId : Uuid) (update : WalkUpdate) : PatchRequest :=
  { path := "/walks/" ++ toString walkId, body := walkUpdateBody update }

/-- `client.update_assignment`: PATCH
`{base_url}/assignments/{assignment_id}` with
`json=update.model_dump(exclude_unset=True)`. -/
def update_assignment_request (assignmentId : Uuid) (update : AssignmentUpdate) :
    PatchRequest :=
  { path := "/assignments/" ++ toString assignmentId,
    body := assignmentUpdateBody update }

/-!
## The pawpal composite service (`pawpal-composite-service/`)

`constraints.validate_review_foreign_keys` parses the review's walk id with
Python's `uuid.UUID(...)` before the remote checks, so the relevant part of
CPython's `uuid.UUID.__init__` hex path and of `int(s, 16)` is embedded
below.
-/

/-- Characters stripped as whitespace by `int(s, 16)` (ASCII fragment of
Python's notion of whitespace). -/
def isPySpace (c : Char) : Bool :=
  c = ' ' || c = Char.ofNat 9 || c = Char.ofNat 10 || c = Char.ofNat 11 ||
    c = Char.ofNat 12 || c = Char.ofNat 13

/-- Value of one hexadecimal digit, if the character is one. -/
def hexVal (c : Char) : Option Nat :=
  if '0' ≤ c ∧ c ≤ '9' then some (c.toNat - 48)
  else if 'a' ≤ c ∧ c ≤ 'f' then some (c.toNat - 87)
  else if 'A' ≤ c ∧ c ≤ 'F' then some (c.toNat - 55)
  else none

/-- Hex digit run with Python's underscore rule: single underscores are
allowed only between digits (`seen` = a digit has appeared, `lastUnd` = the
previous character was an underscore). -/
def scanHexCore : List Char → Nat → Bool → Bool → Option Nat
  | [], acc, seen, lastUnd => if seen && !lastUnd then some acc else none
  | c :: cs, acc, seen, lastUnd =>
    if c = '_' then
      if seen && !lastUnd then scanHexCore cs acc seen true else none
    else
      match hexVal c with
      | some d => scanHexCore cs (16 * acc + d) true false
      | none => none

/-- Digit part of `int(s, 16)` after the optional sign: an optional
`0x`/`0X` prefix (with an optional single underscore right after it),
then underscore-separated hex digits. -/
def parseHexBody : List Char → Option Nat
  | '0' :: c :: rest =>
    if c = 'x' || c = 'X' then
      match rest with
      | '_' :: rest2 => scanHexCore rest2 0 false false
      | _ => scanHexCore rest 0 false false
    else scanHexCore ('0' :: c :: rest) 0 false false
  | s => scanHexCore s 0 false false

/-- `int(s, 16)` on a character list: strip surrounding whitespace, read an
optional sign, then the hex digit body. -/
def pyIntHex16 (s : List Char) : Option Int :=
  let t := ((s.dropWhile isPySpace).reverse.dropWhile isPySpace).reverse
  match t with
  | '-' :: rest => (parseHexBody rest).map (fun n => -(n : Int))
  | '+' :: rest => (parseHexBody rest).map (fun n => (n : Int))
  | rest => (parseHexBody rest).map (fun n => (n : Int))

/-- Whether `pat` occurs at the head of the list. -/
def isMatch : List Char → List Char → Bool
  | [], _ => true
  | _ :: _, [] => false
  | p :: ps, c :: cs => p = c && isMatch ps cs

/-- Left-to-right scan of `str.replace`, structurally recursive on a fuel
bound: every step consumes at least one character, so fuel equal to the
input length never runs out. -/
def replaceSubAux (p : Char) (pat rep : List Char) : Nat → List Char → List Char
  | 0, l => l
  | _ + 1, [] => []
  | fuel + 1, c :: cs =>
    if c = p && isMatch pat cs then
      rep ++ replaceSubAux p pat rep fuel (cs.drop pat.length)
    else c :: replaceSubAux p pat rep fuel cs

/-- `str.replace(p ++ pat, rep)`: replace every occurrence, scanning left
to right (the full pattern is `p :: pat`, kept non-empty by construction).
-/
def replaceSub (p : Char) (pat rep : List Char) (l : List Char) : List Char :=
  replaceSubAux p pat rep l.length l

/-- The left-brace character, written via its code point. -/
def lbrace : Char := Char.ofNat 123

/-- The right-brace character, written via its code point. -/
def rbrace : Char := Char.ofNat 125

/-- Whether the character is one of the braces `str.strip` removes. -/
def isBrace (c : Char) : Bool :=
  c = lbrace || c = rbrace

/-- Python `hex.strip(braces)`: remove every leading and trailing brace. -/
def stripBraceEnds (s : List Char) : List Char :=
  ((s.dropWhile isBrace).reverse.dropWhile isBrace).reverse

/-- CPython `uuid.UUID(hex=s)`: replace every `urn:` then every `uuid:`
with nothing, strip surrounding braces, remove every hyphen, require
exactly 32 remaining characters, parse them with `int(_, 16)`, and require
the value to be a 128-bit non-negative integer.  `none` models the raised
`ValueError`. -/
def pyUUIDParse (s : String) : Option Nat :=
  let step1 := replaceSub 'u' ['r', 'n', ':'] [] s.data
  let step2 := replaceSub 'u' ['u', 'i', 'd', ':'] [] step1
  let cleaned := (stripBraceEnds step2).filter (fun c => c ≠ '-')
  if cleaned.length = 32 then
    match pyIntHex16 cleaned with
    | none => none
    | some v => if 0 ≤ v ∧ v < 2 ^ 128 then some v.toNat else none
  else none

/-- `pawpal-composite-service/models/user.py` `User` (float fields are
inert data here, carried as rationals). -/
structure User where
  id : Option String
  name : Option String
  email : Option String
  role : Option String
  phone : Option String
  location : Option String
  rating : Option Rat
  total_reviews : Option Int
  created_at : Option String
  updated_at : Option String
  deriving DecidableEq

/-- `pawpal-composite-service/models/user.py` `Dog`. -/
structure Dog where
  id : Option String
  owner_id : Option String
  name : Option String
  breed : Option String
  age : Option Int
  size : Option String
  temperament : Option String
  energy_level : Option String
  created_at : Option String
  updated_at : Option String
  deriving DecidableEq

/-- `pawpal-composite-service/models/review.py` `Review`. -/
structure Review where
  id : String
  walkId : String
  ownerId : String
  walkerId : String
  rating : Rat
  comment : Option String
  createdAt : Timestamp
  updatedAt : Timestamp
  deriving DecidableEq

/-- `pawpal-composite-service/models/review.py` `ReviewCreate`. -/
structure ReviewCreate where
  walkId : String
  ownerId : String
  walkerId : String
  rating : Rat
  comment : Option String
  deriving DecidableEq

/-- The review service's list response: a JSON document whose `data` field
holds the page of reviews (`orchestration.py` reads `.get("data", [])`). -/
structure ReviewsPage where
  data : List Review
  deriving DecidableEq

/-- One remote call issued through the pawpal service clients
(`clients/walk_client.py`, `clients/user_client.py`,
`clients/review_client.py`). -/
inductive PCall where
  | getWalk (walkId : Uuid)
  | getUser (userId : String)
  | getUserDogs (userId : String)
  | listReviewsByOwner (ownerId : String)
  | listReviewsByWalker (walkerId : String)
  | createReview (payload : ReviewCreate)
  deriving DecidableEq

/-- Whether a pawpal client call writes to a remote service. -/
def PCall.isMutating : PCall → Bool
  | .createReview _ => true
  | _ => false

/-- Response environment for the three remote services the pawpal
composite talks to, at client-method granularity. -/
structure PawEnv where
  getWalk : Uuid → Option WalkRead
  getUser : String → Option User
  getUserDogs : String → List Dog
  listReviewsByOwner : String → ReviewsPage
  listReviewsByWalker : String → ReviewsPage
  createReview : ReviewCreate → Review

/-- `pawpal-composite-service/constraints.validate_review_foreign_keys`:
parse the walk id with `UUID(walk_id)` (a `ValueError` becomes the 400
"Invalid walk ID format" violation, before any remote call), then check
walk, owner and walker existence in that order, aborting on the first
absent reference with a message naming it. -/
def validate_review_foreign_keys (env : PawEnv)
    (walkId ownerId walkerId : String) :
    Except HttpError Unit × List PCall :=
  match pyUUIDParse walkId with
  | none => (.error ⟨400, "Invalid walk ID format: " ++ walkId⟩, [])
  | some walkUuid =>
    match env.getWalk walkUuid with
    | none =>
      (.error ⟨400, "Walk " ++ walkId ++
          " does not exist. Cannot create review - foreign key constraint violation."⟩,
       [.getWalk walkUuid])
    | some _ =>
      match env.getUser ownerId with
      | none =>
        (.error ⟨400, "Owner " ++ ownerId ++
            " does not exist. Cannot create review - foreign key constraint violation."⟩,
         [.getWalk walkUuid, .getUser ownerId])
      | some _ =>
        match env.getUser walkerId with
        | none =>
          (.error ⟨400, "Walker " ++ walkerId ++
              " does not exist. Cannot create review - foreign key constraint violation."⟩,
           [.getWalk walkUuid, .getUser ownerId, .getUser walkerId])
        | some _ =>
          (.ok (), [.getWalk walkUuid, .getUser ownerId, .getUser walkerId])

/-- Modelled from the spec: the pawpal composite service's create-review
route (the HTTP router module that calls the validator is not in the
source tree; only the validator, clients and models are).  Per the spec's
constrained-create: run the Constraint Validator checks for every foreign
reference the new review carries, in validator-defined order; on first
violation abort before issuing the create; only after all checks pass does
the client's create call fire. -/
def create_review_endpoint (env : PawEnv) (payload : ReviewCreate) :
    Except HttpError Review × List PCall :=
  match validate_review_foreign_keys env payload.walkId payload.ownerId
      payload.walkerId with
  | (.error e, trace) => (.error e, trace)
  | (.ok _, trace) => (.ok (env.createReview payload), trace ++ [.createReview payload])

/-- Reviews block of the `get_user_complete` response. -/
structure ReviewsByRole where
  as_owner : List Review
  as_walker : List Review
  deriving DecidableEq

/-- Summary block of the `get_user_complete` response. -/
structure UserSummary where
  dog_count : Nat
  review_count : Nat
  deriving DecidableEq

/-- Body of a successful `get_user_complete` response. -/
structure UserComplete where
  user : User
  dogs : List Dog
  reviews : ReviewsByRole
  summary : UserSummary
  deriving DecidableEq

/-- `services/orchestration.OrchestrationService.get_user_complete`: three
workers fetch the user, the user's dogs, and the two review lists in one
fan-out wave; only after the join does the code test whether the user
exists, returning the absent marker (`None`, a 404 at the route) if not.
The dog and review calls are issued in the wave either way. -/
def get_user_complete (env : PawEnv) (userId : String) :
    Option UserComplete × List PCall :=
  let user := env.getUser userId
  let dogs := env.getUserDogs userId
  let ownerReviews := (env.listReviewsByOwner userId).data
  let walkerReviews := (env.listReviewsByWalker userId).data
  let trace : List PCall :=
    [.getUser userId, .getUserDogs userId,
     .listReviewsByOwner userId, .listReviewsByWalker userId]
  match user with
  | none => (none, trace)
  | some u =>
    (some ⟨u, dogs, ⟨ownerReviews, walkerReviews⟩,
           ⟨dogs.length, ownerReviews.length + walkerReviews.length⟩⟩,
     trace)

/-!
## Sample data and environments used by the witness theorems
-/

/-- A sample stored walk. -/
def walkW : WalkRead :=
  ⟨1, 10, 20, "123 Riverside Park, NY", "New York", "2025-10-12T14:30:00Z", 30, "requested"⟩

/-- A sample stored assignment of walk 1. -/
def assignmentW : AssignmentRead :=
  ⟨100, 1, 30, none, none, "pending", none⟩

/-- A sample stored event of walk 1. -/
def eventW : EventRead :=
  ⟨200, 1, "2025-10-12T15:10:00Z", "started", none⟩

/-- A sample assignment-creation payload referencing walk 1. -/
def assignmentPayload : AssignmentCreate :=
  ⟨101, 1, 30, none, none, "pending", none⟩

/-- A sample event-creation payload referencing walk 1. -/
def eventPayload : EventCreate :=
  ⟨201, 1, "2025-10-12T15:10:00Z", "started", none⟩

/-- Echo implementation of `create` responses for sample environments. -/
def echoAssignment (p : AssignmentCreate) : AssignmentRead :=
  ⟨p.id, p.walk_id, p.walker_id, p.start_time, p.end_time, p.status, p.notes⟩

/-- Echo implementation of event `create` responses. -/
def echoEvent (p : EventCreate) : EventRead :=
  ⟨p.id, p.walk_id, p.timestamp, p.event_type, p.message⟩

/-- Environment in which no walk exists. -/
def envEmpty : Env where
  getWalk := fun _ => none
  listAssignmentsByWalk := fun _ => []
  listEventsByWalk := fun _ => []
  createAssignment := echoAssignment
  createEvent := echoEvent
  deleteAssignment := fun _ => .ok true
  deleteEvent := fun _ => .ok true
  deleteWalk := fun _ => .ok true

/-- Environment with walk 1, one dependent assignment and one dependent
event, in which every delete reports not-found (`False`). -/
def envCascade : Env where
  getWalk := fun i => if i = 1 then some walkW else none
  listAssignmentsByWalk := fun i => if i = 1 then [assignmentW] else []
  listEventsByWalk := fun i => if i = 1 then [eventW] else []
  createAssignment := echoAssignment
  createEvent := echoEvent
  deleteAssignment := fun _ => .ok false
  deleteEvent := fun _ => .ok false
  deleteWalk := fun _ => .ok false

/-- A sample stored user. -/
def userW : User :=
  ⟨some "9", some "Ann", none, none, none, none, none, none, none, none⟩

/-- A sample stored dog of user 9. -/
def dogW : Dog :=
  ⟨some "d1", some "9", some "Buddy", none, none, none, none, none, none, none⟩

/-- A sample stored review. -/
def reviewW : Review :=
  ⟨"r1", "00000000-0000-0000-0000-000000000001", "9", "7", 5, none,
   "2025-10-12T16:00:00Z", "2025-10-12T16:00:00Z"⟩

/-- Echo implementation of review `create` responses. -/
def echoReview (p : ReviewCreate) : Review :=
  ⟨"r-new", p.walkId, p.ownerId, p.walkerId, p.rating, p.comment,
   "2025-10-12T16:00:00Z", "2025-10-12T16:00:00Z"⟩

/-- Pawpal environment in which no user exists but the dog and review
collections respond. -/
def pawEnvNoUser : PawEnv where
  getWalk := fun i => if i = 1 then some walkW else none
  getUser := fun _ => none
  getUserDogs := fun _ => [dogW]
  listReviewsByOwner := fun _ => ⟨[reviewW]⟩
  listReviewsByWalker := fun _ => ⟨[]⟩
  createReview := echoReview

/-- Pawpal environment with walk 1 and users "9" and "7". -/
def pawEnvFull : PawEnv where
  getWalk := fun i => if i = 1 then some walkW else none
  getUser := fun u => if u = "9" || u = "7" then some userW else none
  getUserDogs := fun _ => [dogW]
  listReviewsByOwner := fun _ => ⟨[reviewW]⟩
  listReviewsByWalker := fun _ => ⟨[]⟩
  createReview := echoReview

/-- A sample review-creation payload referencing walk 1, owner "9" and
walker "7". -/
def reviewPayload : ReviewCreate :=
  ⟨"00000000-0000-0000-0000-000000000001", "9", "7", 5, none⟩

/-!
## Claims
-/

set_option maxRecDepth 10000

/-- C1: a create-dependent request (create assignment, create event) whose
referenced walk does not exist fails with the 400 constraint violation
after only the validator's `get_walk` read: the trace holds no create call
and no mutating call at all, so the request has zero remote side
effects. -/
theorem c1_create_dependent_missing_walk (env : Env)
    (a : AssignmentCreate) (e : EventCreate)
    (ha : env.getWalk a.walk_id = none) (he : env.getWalk e.walk_id = none) :
    create_assignment env a =
      (.error ⟨400, assignmentFkDetail a.walk_id⟩, [.getWalk a.walk_id]) ∧
    create_event env e =
      (.error ⟨400, eventFkDetail e.walk_id⟩, [.getWalk e.walk_id]) ∧
    (∀ c ∈ (create_assignment env a).2, c.isMutating = false) ∧
    (∀ c ∈ (create_event env e).2, c.isMutating = false) := by
  refine ⟨?_, ?_, ?_, ?_⟩ <;>
    simp [create_assignment, create_event, ha, he, Call.isMutating]

/-- C1 witness: in the environment with no walks, the sample create
requests fail with 400 and issue only the validator read. -/
theorem c1_witness :
    create_assignment envEmpty assignmentPayload =
      (.error ⟨400, assignmentFkDetail 1⟩, [.getWalk 1]) ∧
    create_event envEmpty eventPayload =
      (.error ⟨400, eventFkDetail 1⟩, [.getWalk 1]) := by
  have h :=
    c1_create_dependent_missing_walk envEmpty assignmentPayload eventPayload rfl rfl
  exact ⟨h.1, h.2.1⟩

/-- C3: a cascading delete without the override on an existing walk with
at least one dependent fails with the 400 dependency-conflict naming the
dependent kinds found, and its trace holds no mutating call: the walk and
all dependents are left intact. -/
theorem c3_cascade_conflict_without_force (env : Env) (walkId : Uuid)
    (w : WalkRead) (hw : env.getWalk walkId = some w)
    (hdep : env.listAssignmentsByWalk walkId ≠ [] ∨
      env.listEventsByWalk walkId ≠ []) :
    delete_walk_cascade env walkId false =
      (.error ⟨400, cascadeConflictDetail walkId (dependentKinds env walkId)⟩,
       [.getWalk walkId, .listAssignments (some walkId),
        .listEvents (some walkId)]) ∧
    (∀ c ∈ (delete_walk_cascade env walkId false).2, c.isMutating = false) := by
  have hlen : 0 < (dependentKinds env walkId).length := by
    unfold dependentKinds
    rcases hdep with h | h
    · cases hl : env.listAssignmentsByWalk walkId with
      | nil => exact absurd hl h
      | cons x xs => simp [hl]
    · cases hl : env.listEventsByWalk walkId with
      | nil => exact absurd hl h
      | cons x xs => simp [hl]
  constructor
  · simp [delete_walk_cascade, validate_walk_has_no_dependencies, hw, hlen]
  · simp [delete_walk_cascade, validate_walk_has_no_dependencies, hw, hlen,
      Call.isMutating]

/-- C3 witness: walk 1 of the cascade environment has an assignment and an
event, and the forceless cascade returns the conflict naming both kinds,
with a read-only trace. -/
theorem c3_witness :
    delete_walk_cascade envCascade 1 false =
      (.error ⟨400, cascadeConflictDetail 1 ["assignments", "events"]⟩,
       [.getWalk 1, .listAssignments (some 1), .listEvents (some 1)]) := by
  have h := c3_cascade_conflict_without_force envCascade 1 walkW rfl
    (Or.inl (by decide))
  exact h.1

/-- C5: the aggregate read on an existing walk returns exactly the
collections the two underlying list calls return when issued
independently, and the summary counts equal the lengths of the returned
collections. -/
theorem c5_aggregate_read_consistency (env : Env) (walkId : Uuid)
    (w : WalkRead) (hw : env.getWalk walkId = some w) :
    get_walk_complete env walkId =
      (.ok ⟨w, env.listAssignmentsByWalk walkId, env.listEventsByWalk walkId,
            ⟨(env.listAssignmentsByWalk walkId).length,
             (env.listEventsByWalk walkId).length⟩⟩,
       [.getWalk walkId, .listAssignments (some walkId),
        .listEvents (some walkId)]) := by
  simp [get_walk_complete, hw]

/-- C5 witness: the aggregate read of walk 1 in the cascade environment
carries its one assignment and one event with counts 1 and 1. -/
theorem c5_witness :
    get_walk_complete envCascade 1 =
      (.ok ⟨walkW, [assignmentW], [eventW], ⟨1, 1⟩⟩,
       [.getWalk 1, .listAssignments (some 1), .listEvents (some 1)]) := by
  exact c5_aggregate_read_consistency envCascade 1 walkW rfl

/-- C4 counterexample: the user aggregate-read on a non-existent user
returns the not-found outcome, yet the fan-out calls for the related
collections (dogs, owner reviews, walker reviews) were issued — the claim
that no fan-out call is issued and that the existence check precedes the
fan-out fails on `get_user_complete`. -/
theorem c4_counterexample :
    (get_user_complete pawEnvNoUser "9").1 = none ∧
    PCall.getUserDogs "9" ∈ (get_user_complete pawEnvNoUser "9").2 ∧
    PCall.listReviewsByOwner "9" ∈ (get_user_complete pawEnvNoUser "9").2 ∧
    PCall.listReviewsByWalker "9" ∈ (get_user_complete pawEnvNoUser "9").2 := by
  refine ⟨rfl, ?_, ?_, ?_⟩ <;> simp [get_user_complete, pawEnvNoUser]

/-- C4 (amended): the walk aggregate-read validates the parent first and,
when absent, returns 404 having issued only the parent read — no fan-out
call; the user aggregate-read fetches the user inside the same fan-out
wave as its related collections, so an absent user still yields the
not-found outcome but the dog and review calls are issued regardless. -/
theorem c4_aggregate_read_not_found (env : Env) (walkId : Uuid)
    (penv : PawEnv) (userId : String)
    (hw : env.getWalk walkId = none) (hu : penv.getUser userId = none) :
    get_walk_complete env walkId =
      (.error ⟨404, "Walk not found"⟩, [.getWalk walkId]) ∧
    get_user_complete penv userId =
      (none, [.getUser userId, .getUserDogs userId,
              .listReviewsByOwner userId, .listReviewsByWalker userId]) := by
  constructor
  · simp [get_walk_complete, hw]
  · simp [get_user_complete, hu]

/-- C4 witness: the empty walk environment 404s walk 1 with a single read,
and the user-less pawpal environment returns the absent marker for user
"9" after the full fan-out wave. -/
theorem c4_witness :
    get_walk_complete envEmpty 1 =
      (.error ⟨404, "Walk not found"⟩, [.getWalk 1]) ∧
    get_user_complete pawEnvNoUser "9" =
      (none, [.getUser "9", .getUserDogs "9",
              .listReviewsByOwner "9", .listReviewsByWalker "9"]) := by
  exact c4_aggregate_read_not_found envEmpty 1 pawEnvNoUser "9" rfl rfl

/-- C9: a review whose walk id string Python's `uuid.UUID` rejects fails
with the 400 "Invalid walk ID format" violation and an empty trace: no
remote existence check is performed and the owner and walker checks are
never reached. -/
theorem c9_invalid_walk_id_format (env : PawEnv)
    (walkId ownerId walkerId : String) (hbad : pyUUIDParse walkId = none) :
    validate_review_foreign_keys env walkId ownerId walkerId =
      (.error ⟨400, "Invalid walk ID format: " ++ walkId⟩, ([] : List PCall)) := by
  simp [validate_review_foreign_keys, hbad]

/-- C9 witness: "not-a-uuid" is rejected by the embedded `uuid.UUID`
parser, and the validator fails fast with an empty trace. -/
theorem c9_witness :
    validate_review_foreign_keys pawEnvFull "not-a-uuid" "9" "7" =
      (.error ⟨400, "Invalid walk ID format: not-a-uuid"⟩, ([] : List PCall)) := by
  exact c9_invalid_walk_id_format pawEnvFull "not-a-uuid" "9" "7" (by decide)

/-- A best-effort wave whose responses are all booleans (204 or 404)
re-raises no worker exception. -/
theorem firstDeleteError_eq_none {results : List (Except HttpError Bool)}
    (hok : ∀ r ∈ results, ∃ b, r = Except.ok b) :
    firstDeleteError results = none := by
  induction results with
  | nil => rfl
  | cons r rs ih =>
    obtain ⟨b, hb⟩ := hok r (List.mem_cons_self r rs)
    subst hb
    have h := ih (fun x hx => hok x (List.mem_cons_of_mem _ hx))
    simpa [firstDeleteError, List.findSome?_cons] using h

/-- C2: with the override, the cascade issues a delete for every fetched
dependent; dependent delete failures reported as booleans are absorbed
into the success counter (only `True` results count) and never raised to
the caller; and the parent walk is deleted exactly once, last — the trace
is the dependent wave followed by the single parent delete — even when
zero or all dependent deletions individually fail. -/
theorem c2_cascade_force_best_effort (env : Env) (walkId : Uuid)
    (w : WalkRead) (hw : env.getWalk walkId = some w)
    (hok : ∀ r ∈ dependentDeleteResults env walkId, ∃ b, r = Except.ok b)
    (pb : Bool) (hp : env.deleteWalk walkId = .ok pb) :
    delete_walk_cascade env walkId true =
      (.ok ⟨"Walk " ++ toString walkId ++ " and " ++
              toString (countDeleted (dependentDeleteResults env walkId)) ++
              " related records deleted successfully",
            walkId, (env.listAssignmentsByWalk walkId).length,
            (env.listEventsByWalk walkId).length,
            countDeleted (dependentDeleteResults env walkId)⟩,
       cascadePreParentTrace env walkId ++ [.deleteWalk walkId]) ∧
    Call.deleteWalk walkId ∉ cascadePreParentTrace env walkId ∧
    (∀ a ∈ env.listAssignmentsByWalk walkId,
       Call.deleteAssignment a.id ∈ cascadePreParentTrace env walkId) ∧
    (∀ e ∈ env.listEventsByWalk walkId,
       Call.deleteEvent e.id ∈ cascadePreParentTrace env walkId) := by
  have hfe := firstDeleteError_eq_none hok
  refine ⟨?_, ?_, ?_, ?_⟩
  · simp [delete_walk_cascade, validate_walk_has_no_dependencies, hw, hfe, hp,
      cascadePreParentTrace, dependentDeleteCalls]
  · simp [cascadePreParentTrace, dependentDeleteCalls]
  · intro a ha
    simp [cascadePreParentTrace, dependentDeleteCalls]
    exact ⟨a, ha, rfl⟩
  · intro e he
    simp [cascadePreParentTrace, dependentDeleteCalls]
    exact ⟨e, he, rfl⟩

/-- C2 witness: walk 1 with one assignment and one event, every delete
answering not-found: the cascade still succeeds, counts zero successful
dependent deletions, and the parent delete is the unique last call. -/
theorem c2_witness :
    delete_walk_cascade envCascade 1 true =
      (.ok ⟨"Walk 1 and 0 related records deleted successfully", 1, 1, 1, 0⟩,
       cascadePreParentTrace envCascade 1 ++ [.deleteWalk 1]) ∧
    Call.deleteWalk 1 ∉ cascadePreParentTrace envCascade 1 := by
  have h := c2_cascade_force_best_effort envCascade 1 walkW rfl
    (by decide) false rfl
  exact ⟨h.1.trans (by decide), h.2.1⟩

/-- C10: a cascade that reaches the final step discards the parent
delete's boolean: even when the parent delete reports not-found the
operation still returns the 200 summary, and the per-kind counts it
reports are the lengths of the dependent lists fetched before deletion,
not the number of deletions that succeeded. -/
theorem c10_parent_delete_result_discarded (env : Env) (walkId : Uuid)
    (w : WalkRead) (hw : env.getWalk walkId = some w) (force : Bool)
    (hguard : dependentKinds env walkId ≠ [] → force = true)
    (hok : ∀ r ∈ dependentDeleteResults env walkId, ∃ b, r = Except.ok b)
    (hp : env.deleteWalk walkId = .ok false) :
    (delete_walk_cascade env walkId force).1 =
      .ok ⟨"Walk " ++ toString walkId ++ " and " ++
             toString (countDeleted (dependentDeleteResults env walkId)) ++
             " related records deleted successfully",
           walkId, (env.listAssignmentsByWalk walkId).length,
           (env.listEventsByWalk walkId).length,
           countDeleted (dependentDeleteResults env walkId)⟩ := by
  have hfe := firstDeleteError_eq_none hok
  have hcond :
      (decide (0 < (dependentKinds env walkId).length) && !force) = false := by
    by_cases hk : dependentKinds env walkId = []
    · simp [hk]
    · simp [hguard hk]
  simp [delete_walk_cascade, validate_walk_has_no_dependencies, hw, hfe, hp,
    hcond]

/-- C10 witness: with every delete of the cascade environment answering
not-found — the parent's included — the cascade still returns the 200
summary with per-kind counts 1 and 1 and zero counted deletions. -/
theorem c10_witness :
    (delete_walk_cascade envCascade 1 true).1 =
      .ok ⟨"Walk 1 and 0 related records deleted successfully", 1, 1, 1, 0⟩ := by
  have h := c10_parent_delete_result_discarded envCascade 1 walkW rfl true
    (fun _ => rfl) (by decide) rfl
  exact h.trans (by decide)

/-- C6: for a review create whose walk id parses, the validator checks run
walk → owner → walker; the first absent reference aborts the operation
with a message naming that reference, before any later check and before
the create call; only when all three pass does the create call fire,
after the three checks. -/
theorem c6_review_create_check_order (env : PawEnv) (p : ReviewCreate)
    (walkUuid : Nat) (hparse : pyUUIDParse p.walkId = some walkUuid) :
    (env.getWalk walkUuid = none →
      create_review_endpoint env p =
        (.error ⟨400, "Walk " ++ p.walkId ++
            " does not exist. Cannot create review - foreign key constraint violation."⟩,
         [.getWalk walkUuid])) ∧
    (∀ w, env.getWalk walkUuid = some w → env.getUser p.ownerId = none →
      create_review_endpoint env p =
        (.error ⟨400, "Owner " ++ p.ownerId ++
            " does not exist. Cannot create review - foreign key constraint violation."⟩,
         [.getWalk walkUuid, .getUser p.ownerId])) ∧
    (∀ w o, env.getWalk walkUuid = some w → env.getUser p.ownerId = some o →
      env.getUser p.walkerId = none →
      create_review_endpoint env p =
        (.error ⟨400, "Walker " ++ p.walkerId ++
            " does not exist. Cannot create review - foreign key constraint violation."⟩,
         [.getWalk walkUuid, .getUser p.ownerId, .getUser p.walkerId])) ∧
    (∀ w o wk, env.getWalk walkUuid = some w → env.getUser p.ownerId = some o →
      env.getUser p.walkerId = some wk →
      create_review_endpoint env p =
        (.ok (env.createReview p),
         [.getWalk walkUuid, .getUser p.ownerId, .getUser p.walkerId,
          .createReview p])) := by
  refine ⟨?_, ?_, ?_, ?_⟩
  · intro h1
    simp [create_review_endpoint, validate_review_foreign_keys, hparse, h1]
  · intro w h1 h2
    simp [create_review_endpoint, validate_review_foreign_keys, hparse, h1, h2]
  · intro w o h1 h2 h3
    simp [create_review_endpoint, validate_review_foreign_keys, hparse, h1, h2,
      h3]
  · intro w o wk h1 h2 h3
    simp [create_review_endpoint, validate_review_foreign_keys, hparse, h1, h2,
      h3]

/-- C6 witness: with walk 1 and users "9" and "7" present, the sample
review create passes all three checks and the create call fires last. -/
theorem c6_witness :
    create_review_endpoint pawEnvFull reviewPayload =
      (.ok (echoReview reviewPayload),
       [.getWalk 1, .getUser "9", .getUser "7",
        .createReview reviewPayload]) := by
  have h := (c6_review_create_check_order pawEnvFull reviewPayload 1
    (by decide)).2.2.2 walkW userW userW (by decide) (by decide) (by decide)
  exact h

/-- Membership in one `optField` block of a partial-update body. -/
theorem pair_mem_optField {α : Type} {k key : String} {enc : α → Json}
    {o : Option α} {j : Json} :
    (k, j) ∈ optField key enc o ↔ k = key ∧ ∃ v, o = some v ∧ j = enc v := by
  cases o <;> simp [optField]

/-- C7: the PATCH body the update client sends contains exactly the
key/value pairs of the supplied fields — a pair is in the body iff its
field was supplied with that value, so unset fields are omitted from the
request — for both the walk and the assignment update. -/
theorem c7_partial_update_only_supplied_fields (walkId assignmentId : Uuid)
    (u : WalkUpdate) (v : AssignmentUpdate) (k : String) (j : Json) :
    ((k, j) ∈ (update_walk_request walkId u).body ↔
      (k = "scheduled_time" ∧ ∃ t, u.scheduled_time = some t ∧ j = .str t) ∨
      (k = "duration_minutes" ∧ ∃ n, u.duration_minutes = some n ∧ j = .num n) ∨
      (k = "location" ∧ ∃ s, u.location = some s ∧ j = .str s) ∨
      (k = "city" ∧ ∃ s, u.city = some s ∧ j = .str s) ∨
      (k = "status" ∧ ∃ s, u.status = some s ∧ j = .str s)) ∧
    ((k, j) ∈ (update_assignment_request assignmentId v).body ↔
      (k = "start_time" ∧ ∃ t, v.start_time = some t ∧ j = .str t) ∨
      (k = "end_time" ∧ ∃ t, v.end_time = some t ∧ j = .str t) ∨
      (k = "status" ∧ ∃ s, v.status = some s ∧ j = .str s) ∨
      (k = "notes" ∧ ∃ s, v.notes = some s ∧ j = .str s)) := by
  constructor
  · simp [update_walk_request, walkUpdateBody, pair_mem_optField,
      List.mem_append, or_assoc]
  · simp [update_assignment_request, assignmentUpdateBody, pair_mem_optField,
      List.mem_append, or_assoc]

/-- C8: the delete client maps 204 to `True` and 404 to `False` (a
not-found response never raises), and any other status is passed through
as an error carrying the original status and body — for both the walk and
the assignment delete. -/
theorem c8_delete_status_mapping (response : HttpResponse) :
    (delete_walk_client response = .ok true ↔ response.status = 204) ∧
    (delete_walk_client response = .ok false ↔ response.status = 404) ∧
    (delete_walk_client response = .error ⟨response.status, response.text⟩ ∨
      response.status = 204 ∨ response.status = 404) ∧
    (delete_assignment_client response = .ok true ↔ response.status = 204) ∧
    (delete_assignment_client response = .ok false ↔ response.status = 404) ∧
    (delete_assignment_client response = .error ⟨response.status, response.text⟩ ∨
      response.status = 204 ∨ response.status = 404) := by
  by_cases h204 : response.status = 204
  · simp [delete_walk_client, delete_assignment_client, h204]
  · by_cases h404 : response.status = 404
    · simp [delete_walk_client, delete_assignment_client, h204, h404]
    · simp [delete_walk_client, delete_assignment_client, h204, h404]

end CompositeMicroservices
